import Mathlib

/-!
Verification of the cookie parsing, building and serialization library.

The embedding models Rust strings as lists of characters (`Str`).  All
validators in src/parse.rs inspect the UTF-8 bytes of the string; for the
byte sets they test (ASCII ranges plus "everything at or above 0x80 is
uniformly accepted or uniformly rejected"), a per-character check on the
character code point is accept/reject equivalent to the per-byte check,
because every byte of a multi-byte UTF-8 character is at least 0x80 and
every character of code point at least 0x80 also fails or passes the same
ASCII range tests.  The length cap, however, is on the UTF-8 byte length,
so it is modelled with the exact byte size of each character.

The date/time crate (calendar parsing, current time) is an external
collaborator; `parse` and `display` take it as an explicit parameter.
-/

set_option maxRecDepth 10000

namespace Cookies

/-- A Rust `&str`, modelled as its sequence of characters. -/
abbrev Str := List Char

/-- The UTF-8 byte length of a string, as Rust `str::len` computes it. -/
def byteLen (s : Str) : Nat :=
  (s.map Char.utf8Size).sum

/-- Error kinds, from the `Kind` enumeration in src/error.rs. -/
inductive Err where
  | invalidName
  | invalidValue
  | invalidPath
  | invalidDomain
  | tooLong
deriving DecidableEq, Repr

/-- The `SameSite` enumeration from src/util.rs. -/
inductive SameSite where
  | lax
  | strict
deriving DecidableEq, Repr

/-- The three-way result of `validate_domain` in src/parse.rs. -/
inductive Domain where
  | asIs
  | leadingDot
  | invalid
deriving DecidableEq, Repr

/-- Rust `char::is_whitespace`: the Unicode White_Space property.  Used by
`str::trim`, which the parser applies to names and attribute values. -/
def isRustWhitespace (c : Char) : Bool :=
  let n := c.toNat
  (0x09 ≤ n && n ≤ 0x0D) || n == 0x20 || n == 0x85 || n == 0xA0 ||
  n == 0x1680 || (0x2000 ≤ n && n ≤ 0x200A) || n == 0x2028 || n == 0x2029 ||
  n == 0x202F || n == 0x205F || n == 0x3000

/-- Rust `str::trim`: removes whitespace from both ends. -/
def trim (s : Str) : Str :=
  ((s.dropWhile isRustWhitespace).reverse.dropWhile isRustWhitespace).reverse

/-- Rust `str::split(';')`: the segment before the first `;`, and the list
of remaining segments.  Mirrors that `split` always yields at least one
item. -/
def splitSemi : Str → Str × List Str
  | [] => ([], [])
  | c :: rest =>
    let (h, t) := splitSemi rest
    if c = ';' then ([], h :: t) else (c :: h, t)

/-- Rust `str::find('=')` followed by slicing `[..i]` and `[(i+1)..]`:
`none` when there is no `=`, otherwise the parts before and after the
first `=`. -/
def splitEq : Str → Option (Str × Str)
  | [] => none
  | c :: rest =>
    if c = '=' then some ([], rest)
    else (splitEq rest).map (fun p => (c :: p.1, p.2))

/-- Rust `u8::eq_ignore_ascii_case` applied byte-wise, lifted to whole
strings as `str::eq_ignore_ascii_case`. -/
def lowerAscii (c : Char) : Char :=
  if 0x41 ≤ c.toNat && c.toNat ≤ 0x5A then Char.ofNat (c.toNat + 32) else c

/-- Rust `str::eq_ignore_ascii_case`. -/
def eqIgnoreAsciiCase (a b : Str) : Bool :=
  a.map lowerAscii == b.map lowerAscii

/-- Bytes rejected inside a cookie name: RFC 6265 separators, controls
(0 to 32 inclusive) and DEL, from `validate_name` in src/parse.rs. -/
def nameBadByte (c : Char) : Bool :=
  c == '(' || c == ')' || c == '<' || c == '>' || c == '@' ||
  c == ',' || c == ';' || c == ':' || c == '\\' || c == '"' ||
  c == '/' || c == '[' || c == ']' || c == '?' || c == '=' ||
  c == '{' || c == '}' || c.toNat ≤ 32 || c.toNat == 127

/-- Function `validate_name` from src/parse.rs: empty names and names holding a
separator or control byte are rejected. -/
def validate_name (n : Str) : Except Err Unit :=
  if n.isEmpty then .error .invalidName
  else if n.any nameBadByte then .error .invalidName
  else .ok ()

/-- The `cookie-octet` byte ranges accepted in a cookie value, from
`validate_value` in src/parse.rs. -/
def cookieOctet (c : Char) : Bool :=
  let b := c.toNat
  b == 0x21 || (0x23 ≤ b && b ≤ 0x2B) || (0x2D ≤ b && b ≤ 0x3A) ||
  (0x3C ≤ b && b ≤ 0x5B) || (0x5D ≤ b && b ≤ 0x7E)

/-- Function `validate_value` from src/parse.rs: every byte must be a
cookie-octet; the empty value passes vacuously. -/
def validate_value (v : Str) : Except Err Unit :=
  if v.all cookieOctet then .ok () else .error .invalidValue

/-- Bytes that invalidate a path or domain: controls, `;` and DEL, from
`is_valid_path` and `validate_domain` in src/parse.rs. -/
def ctlOrSemi (c : Char) : Bool :=
  c.toNat ≤ 32 || c == ';' || c.toNat == 127

/-- Function `is_valid_path` from src/parse.rs: nonempty, starts with `/`, and no
control byte or `;` anywhere. -/
def is_valid_path (p : Str) : Bool :=
  match p with
  | [] => false
  | c :: _ => c == '/' && p.all (fun b => !ctlOrSemi b)

/-- Function `validate_domain` from src/parse.rs: `invalid` when empty or holding
a control byte or `;`; `leadingDot` when the first byte is `.`;
`asIs` otherwise. -/
def validate_domain (d : Str) : Domain :=
  match d with
  | [] => .invalid
  | c :: _ =>
    if d.any ctlOrSemi then .invalid
    else if c = '.' then .leadingDot
    else .asIs

/-- The observable state of a cookie: the accessors of the `Cookie` trait
in src/lib.rs.  The parsed variant in src/parse.rs stores byte offsets
into the source text; here each accessor result is stored directly, which
is what the offsets denote. -/
structure CookieR where
  name : Str
  value : Str
  domain : Option Str
  path : Option Str
  max_age : Option Nat
  secure : Bool
  http_only : Bool
  same_site : Option SameSite
deriving DecidableEq, Repr

/-- The `same_site_strict` accessor, true exactly when SameSite is
Strict. -/
def CookieR.same_site_strict (c : CookieR) : Bool :=
  c.same_site == some SameSite.strict

/-- The `same_site_lax` accessor, true exactly when SameSite is Lax. -/
def CookieR.same_site_lax (c : CookieR) : Bool :=
  c.same_site == some SameSite.lax

/-- Rust digit run: `some` of the numeric value when the list is nonempty
and all decimal digits. -/
def parseDigits (s : Str) : Option Nat :=
  if s.isEmpty then none
  else if s.all (fun c => 0x30 ≤ c.toNat && c.toNat ≤ 0x39) then
    some (s.foldl (fun a c => a * 10 + (c.toNat - 0x30)) 0)
  else none

/-- Rust `str::parse::<i64>`: an optional sign followed by decimal
digits, rejecting values outside the signed 64-bit range. -/
def parse_i64 (s : Str) : Option Int :=
  match s with
  | '+' :: rest =>
    (parseDigits rest).bind (fun n => if n ≤ 2 ^ 63 - 1 then some (n : Int) else none)
  | '-' :: rest =>
    (parseDigits rest).bind (fun n => if n ≤ 2 ^ 63 then some (-(n : Int)) else none)
  | _ =>
    (parseDigits s).bind (fun n => if n ≤ 2 ^ 63 - 1 then some (n : Int) else none)

/-- Mutable state of the attribute loop in `parse` (src/parse.rs lines
150 to 201): the cookie under construction and the lazily recorded
`Expires` value. -/
structure ScanState where
  cookie : CookieR
  expires : Option Str
deriving DecidableEq, Repr

/-- One iteration of the attribute loop in `parse` (src/parse.rs lines
152 to 201): split the segment at the first `=`, trim both parts, then
dispatch on the case-insensitive attribute name.  Invalid occurrences
leave the state unchanged. -/
def applyAttr (st : ScanState) (attr : Str) : ScanState :=
  let (name, value) :=
    match splitEq attr with
    | some (n, v) => (trim n, some (trim v))
    | none => (trim attr, (none : Option Str))
  if eqIgnoreAsciiCase name ("secure".toList) then
    { st with cookie := { st.cookie with secure := true } }
  else if eqIgnoreAsciiCase name ("httponly".toList) then
    { st with cookie := { st.cookie with http_only := true } }
  else
    match value with
    | none => st
    | some value =>
      if eqIgnoreAsciiCase name ("max-age".toList) then
        match parse_i64 value with
        | some secs =>
          if secs ≤ 0 then
            { st with cookie := { st.cookie with max_age := some 0 } }
          else
            { st with cookie := { st.cookie with max_age := some secs.toNat } }
        | none => st
      else if eqIgnoreAsciiCase name ("path".toList) then
        if is_valid_path value then
          { st with cookie := { st.cookie with path := some value } }
        else st
      else if eqIgnoreAsciiCase name ("domain".toList) then
        match validate_domain value with
        | .asIs => { st with cookie := { st.cookie with domain := some value } }
        | .leadingDot => { st with cookie := { st.cookie with domain := some (value.drop 1) } }
        | .invalid => st
      else if eqIgnoreAsciiCase name ("expires".toList) then
        { st with expires := some value }
      else if eqIgnoreAsciiCase name ("samesite".toList) then
        if eqIgnoreAsciiCase value ("lax".toList) then
          { st with cookie := { st.cookie with same_site := some SameSite.lax } }
        else if eqIgnoreAsciiCase value ("strict".toList) then
          { st with cookie := { st.cookie with same_site := some SameSite.strict } }
        else st
      else st

/-- The maximum accepted source length, `MAX_LENGTH` in src/parse.rs. -/
def MAX_LENGTH : Nat := 4096

/-- The phase of `parse` before the Expires fallback (src/parse.rs lines
126 to 201): length cap, name/value extraction and validation, then the
attribute loop. -/
def parseScan (src : Str) : Except Err ScanState :=
  if byteLen src > MAX_LENGTH then .error .tooLong
  else
    let (name_value, attrs) := splitSemi src
    match splitEq name_value with
    | none => .error .invalidName
    | some (n0, v0) =>
      let n := trim n0
      let v := trim v0
      match validate_name n with
      | .error e => .error e
      | .ok _ =>
        match validate_value v with
        | .error e => .error e
        | .ok _ =>
          let init : ScanState :=
            { cookie :=
                { name := n, value := v, domain := none, path := none,
                  max_age := none, secure := false, http_only := false,
                  same_site := none },
              expires := none }
          .ok (attrs.foldl applyAttr init)

/-- The strftime pattern for RFC 1123 dates, first format tried for
`Expires` in src/parse.rs. -/
def fmtRfc1123 : String := "%a, %d %b %Y %T %Z"

/-- The strftime pattern for RFC 850 dates, second format tried. -/
def fmtRfc850 : String := "%A, %d-%b-%y %T %Z"

/-- The asctime strftime pattern, third format tried. -/
def fmtAsctime : String := "%c"

/-- The chain of `time::strptime` attempts for an `Expires` value
(src/parse.rs lines 204 to 206), with the calendar parser `strptime` as
explicit collaborator mapping a format pattern and text to seconds since
the epoch. -/
def tryFormats (strptime : String → Str → Option Int) (exp : Str) : Option Int :=
  match strptime fmtRfc1123 exp with
  | some t => some t
  | none =>
    match strptime fmtRfc850 exp with
    | some t => some t
    | none => strptime fmtAsctime exp

/-- Function `parse` from src/parse.rs: the scan phase, then the Expires fallback
(lines 203 to 220) executed only when no Max-Age was applied and an
Expires value was captured.  `strptime` and `now` are the date/time
collaborators (`time::strptime`, `time::get_time`). -/
def parse (strptime : String → Str → Option Int) (now : Int) (src : Str) :
    Except Err CookieR :=
  match parseScan src with
  | .error e => .error e
  | .ok st =>
    match st.expires, st.cookie.max_age with
    | some exp, none =>
      match tryFormats strptime exp with
      | some esec =>
        if esec > now ∧ esec > 0 then
          .ok { st.cookie with max_age := some (esec - now).toNat }
        else
          .ok { st.cookie with max_age := some 0 }
      | none => .ok st.cookie
    | _, _ => .ok st.cookie

/-- Function `display` from src/util.rs (lines 147 to 187): the canonical wire
format.  When `max_age` is present the source also renders an absolute
`Expires` date from the current clock (`get_expires` plus `rfc822`);
that date/time collaborator is the explicit parameter `fmtExpires`,
mapping the max-age seconds to the rendered date text. -/
def display (fmtExpires : Nat → Str) (c : CookieR) : Str :=
  c.name ++ '=' :: c.value
  ++ (match c.path with
      | some p => "; Path=".toList ++ p
      | none => [])
  ++ (match c.domain with
      | some d => "; Domain=".toList ++ d
      | none => [])
  ++ (match c.max_age with
      | some ma =>
        "; Max-Age=".toList ++ (Nat.repr ma).toList ++ "; Expires=".toList ++ fmtExpires ma
      | none => [])
  ++ (if c.http_only then "; HttpOnly".toList else [])
  ++ (if c.secure then "; Secure".toList else [])
  ++ (if c.same_site_strict then "; SameSite=Strict".toList
      else if c.same_site_lax then "; SameSite=Lax".toList
      else [])

/-- The `Builder` structure from src/build.rs: a `Result`-carrying
accumulator.  Each delegation wrapper (`WithValue`, `WithPath`, ...)
overrides exactly one accessor and forwards the rest, so a chain of
wrappers is observationally a `CookieR` record; the wrappers are
embedded as record updates. -/
structure Builder where
  state : Except Err CookieR

/-- The inner `Pair` cookie of `Builder::new`: name and value with every
other accessor at its default. -/
def pairCookie (name value : Str) : CookieR :=
  { name := name, value := value, domain := none, path := none,
    max_age := none, secure := false, http_only := false, same_site := none }

/-- Step `Builder::new` from src/build.rs: validates name, then value, and
seeds the state with the `Pair` cookie on success. -/
def Builder.new (name value : Str) : Builder :=
  { state :=
      ((validate_name name).bind (fun _ => validate_value value)).map
        (fun _ => pairCookie name value) }

/-- Step `Builder::wrap` from src/build.rs: seed the state with an existing
cookie. -/
def Builder.wrap (c : CookieR) : Builder :=
  { state := .ok c }

/-- The private `Builder::and_then` from src/build.rs: thread the fallible
step through the stored `Result`. -/
def Builder.and_then (b : Builder) (f : CookieR → Except Err CookieR) : Builder :=
  { state := b.state.bind f }

/-- Step `Builder::value` from src/build.rs: validate, then override the value
accessor (`WithValue`). -/
def Builder.value (b : Builder) (v : Str) : Builder :=
  b.and_then (fun c => (validate_value v).map (fun _ => { c with value := v }))

/-- Step `Builder::path` from src/build.rs: an invalid path is a hard error,
unlike the lenient Parser. -/
def Builder.path (b : Builder) (p : Str) : Builder :=
  b.and_then (fun c =>
    if is_valid_path p then .ok { c with path := some p }
    else .error .invalidPath)

/-- Step `Builder::domain` from src/build.rs: only `AsIs` domains are
accepted; `LeadingDot` and `Invalid` are both hard errors. -/
def Builder.domain (b : Builder) (d : Str) : Builder :=
  b.and_then (fun c =>
    match validate_domain d with
    | .asIs => .ok { c with domain := some d }
    | .leadingDot => .error .invalidDomain
    | .invalid => .error .invalidDomain)

/-- Step `Builder::max_age` from src/build.rs: always succeeds
(`WithMaxAge`). -/
def Builder.max_age (b : Builder) (d : Nat) : Builder :=
  b.and_then (fun c => .ok { c with max_age := some d })

/-- Step `Builder::secure` from src/build.rs: always succeeds
(`WithSecure`). -/
def Builder.secure (b : Builder) (s : Bool) : Builder :=
  b.and_then (fun c => .ok { c with secure := s })

/-- Step `Builder::http_only` from src/build.rs: always succeeds
(`WithHttpOnly`). -/
def Builder.http_only (b : Builder) (h : Bool) : Builder :=
  b.and_then (fun c => .ok { c with http_only := h })

/-- Step `Builder::build` from src/build.rs: return the accumulated state. -/
def Builder.build (b : Builder) : Except Err CookieR :=
  b.state

instance {ε α : Type} [DecidableEq ε] [DecidableEq α] : DecidableEq (Except ε α) :=
  fun a b =>
    match a, b with
    | .ok x, .ok y => decidable_of_iff (x = y) (by simp)
    | .error x, .error y => decidable_of_iff (x = y) (by simp)
    | .ok _, .error _ => isFalse (by simp)
    | .error _, .ok _ => isFalse (by simp)

instance : DecidableEq Builder :=
  fun a b => decidable_of_iff (a.state = b.state) (by cases a; cases b; simp)

/-- The source text of the round-trip scenario. -/
def c4src : String :=
  "foo=bar; Path=/index.html; Domain=hyper.example; HttpOnly; Secure; SameSite=Strict"

/-- The same attribute list with every attribute name and the SameSite
token written in lower case. -/
def c4srcLower : String :=
  "foo=bar; path=/index.html; domain=hyper.example; httponly; secure; samesite=strict"

/-- The cookie that parsing the round-trip scenario yields. -/
def c4cookie : CookieR :=
  { name := "foo".toList, value := "bar".toList,
    domain := some ("hyper.example".toList), path := some ("/index.html".toList),
    max_age := none, secure := true, http_only := true,
    same_site := some SameSite.strict }

/-!  Helper lemmas shared by the claim theorems. -/

/-- Computation rule for a `Path=<v>` attribute segment. -/
theorem applyAttr_path_eq (st : ScanState) (v : Str) :
    applyAttr st ('P' :: 'a' :: 't' :: 'h' :: '=' :: v) =
      (if is_valid_path (trim v) then
        { st with cookie := { st.cookie with path := some (trim v) } }
      else st) := rfl

/-- Computation rule for a `Max-Age=<v>` attribute segment. -/
theorem applyAttr_max_age_eq (st : ScanState) (v : Str) :
    applyAttr st ('M' :: 'a' :: 'x' :: '-' :: 'A' :: 'g' :: 'e' :: '=' :: v) =
      (match parse_i64 (trim v) with
       | some secs =>
         if secs ≤ 0 then { st with cookie := { st.cookie with max_age := some 0 } }
         else { st with cookie := { st.cookie with max_age := some secs.toNat } }
       | none => st) := rfl

/-- Computation rule for a `Domain=<v>` attribute segment. -/
theorem applyAttr_domain_eq (st : ScanState) (v : Str) :
    applyAttr st ('D' :: 'o' :: 'm' :: 'a' :: 'i' :: 'n' :: '=' :: v) =
      (match validate_domain (trim v) with
       | .asIs => { st with cookie := { st.cookie with domain := some (trim v) } }
       | .leadingDot => { st with cookie := { st.cookie with domain := some ((trim v).drop 1) } }
       | .invalid => st) := rfl

/-- When name and value are valid, `Builder::new` seeds the state with
the bare pair cookie. -/
theorem Builder.new_ok (n v : Str) (h1 : validate_name n = .ok ())
    (h2 : validate_value v = .ok ()) :
    (Builder.new n v).state = .ok (pairCookie n v) := by
  simp [Builder.new, h1, h2, Except.bind, Except.map]

/-- No attribute segment ever stores an invalid path: each scan step
either leaves the path untouched or replaces it with a value accepted by
`is_valid_path`. -/
theorem applyAttr_path_only_valid (st : ScanState) (attr : Str) :
    (applyAttr st attr).cookie.path = st.cookie.path ∨
    ∃ v, is_valid_path v = true ∧ (applyAttr st attr).cookie.path = some v := by
  unfold applyAttr
  split
  rename_i nm vl heq
  by_cases h1 : eqIgnoreAsciiCase nm ("secure".toList) = true
  · rw [if_pos h1]; left; rfl
  rw [if_neg h1]
  by_cases h2 : eqIgnoreAsciiCase nm ("httponly".toList) = true
  · rw [if_pos h2]; left; rfl
  rw [if_neg h2]
  cases vl with
  | none => left; rfl
  | some value =>
    dsimp only
    by_cases h3 : eqIgnoreAsciiCase nm ("max-age".toList) = true
    · rw [if_pos h3]
      split
      · split <;> (left; rfl)
      · left; rfl
    rw [if_neg h3]
    by_cases h4 : eqIgnoreAsciiCase nm ("path".toList) = true
    · rw [if_pos h4]
      by_cases h5 : is_valid_path value = true
      · rw [if_pos h5]
        right
        exact ⟨value, h5, rfl⟩
      · rw [if_neg h5]; left; rfl
    rw [if_neg h4]
    by_cases h6 : eqIgnoreAsciiCase nm ("domain".toList) = true
    · rw [if_pos h6]
      split <;> (left; rfl)
    rw [if_neg h6]
    by_cases h7 : eqIgnoreAsciiCase nm ("expires".toList) = true
    · rw [if_pos h7]; left; rfl
    rw [if_neg h7]
    by_cases h8 : eqIgnoreAsciiCase nm ("samesite".toList) = true
    · rw [if_pos h8]
      by_cases h9 : eqIgnoreAsciiCase value ("lax".toList) = true
      · rw [if_pos h9]; left; rfl
      rw [if_neg h9]
      by_cases h10 : eqIgnoreAsciiCase value ("strict".toList) = true
      · rw [if_pos h10]; left; rfl
      · rw [if_neg h10]; left; rfl
    · rw [if_neg h8]; left; rfl

/-- The byte length of a repeated character. -/
theorem byteLen_replicate (n : Nat) (c : Char) :
    byteLen (List.replicate n c) = n * c.utf8Size := by
  induction n with
  | zero => simp [byteLen]
  | succ k ih =>
    simp only [List.replicate_succ, byteLen, List.map_cons, List.sum_cons] at *
    rw [ih, Nat.succ_mul]
    omega

/-- A domain starting with a dot is never classified `asIs`. -/
theorem validate_domain_dot (d : Str) :
    validate_domain ('.' :: d) = Domain.leadingDot ∨
    validate_domain ('.' :: d) = Domain.invalid := by
  unfold validate_domain
  dsimp only
  by_cases h : ('.' :: d).any ctlOrSemi = true
  · right; rw [if_pos h]
  · left; rw [if_neg h]; rfl

/-!  Claim theorems. -/

/-- C1: strict-versus-lenient divergence.  Any path rejected by
`is_valid_path` is a hard `InvalidPath` error from the Builder (shown for
every valid name/value seed), while the Parser accepts
`n=v; Path=bad-path` with an absent path, and in general skips a
`Path` attribute whose trimmed value is invalid. -/
theorem claim_C1_strict_vs_lenient :
    (∀ n v p, validate_name n = .ok () → validate_value v = .ok () →
      is_valid_path p = false →
      ((Builder.new n v).path p).build = .error Err.invalidPath) ∧
    (∀ f now, parse f now ("n=v; Path=bad-path".toList) =
      .ok (pairCookie ("n".toList) ("v".toList))) ∧
    (∀ st v, is_valid_path (trim v) = false →
      applyAttr st ('P' :: 'a' :: 't' :: 'h' :: '=' :: v) = st) := by
  refine ⟨?_, fun f now => rfl, ?_⟩
  · intro n v p h1 h2 h3
    simp [Builder.path, Builder.and_then, Builder.build, Builder.new_ok n v h1 h2,
      Except.bind, h3]
  · intro st v h
    rw [applyAttr_path_eq, if_neg]
    simp [h]

/-- Witness for C1 at the concrete scenario of the claim. -/
theorem claim_C1_strict_vs_lenient_witness :
    ((Builder.new ("n".toList) ("v".toList)).path ("bad-path".toList)).build =
      .error Err.invalidPath :=
  claim_C1_strict_vs_lenient.1 ("n".toList) ("v".toList) ("bad-path".toList)
    (by decide) (by decide) (by decide)

/-- C2: last-valid-wins.  `n=v; Path=/a; Path=bogus` keeps `/a` and
`n=v; Path=/a; Path=/b` keeps `/b`; a `Path` attribute with an invalid
trimmed value leaves the whole scan state, and in particular any earlier
stored path, unchanged; one with a valid value overwrites the stored
path; and no attribute segment whatsoever can change the stored path to
anything but a valid value. -/
theorem claim_C2_last_valid_wins :
    (∀ f now, parse f now ("n=v; Path=/a; Path=bogus".toList) =
      .ok { pairCookie ("n".toList) ("v".toList) with path := some ("/a".toList) }) ∧
    (∀ f now, parse f now ("n=v; Path=/a; Path=/b".toList) =
      .ok { pairCookie ("n".toList) ("v".toList) with path := some ("/b".toList) }) ∧
    (∀ st v, is_valid_path (trim v) = false →
      applyAttr st ('P' :: 'a' :: 't' :: 'h' :: '=' :: v) = st) ∧
    (∀ st v, is_valid_path (trim v) = true →
      applyAttr st ('P' :: 'a' :: 't' :: 'h' :: '=' :: v) =
        { st with cookie := { st.cookie with path := some (trim v) } }) ∧
    (∀ st attr, (applyAttr st attr).cookie.path = st.cookie.path ∨
      ∃ v, is_valid_path v = true ∧ (applyAttr st attr).cookie.path = some v) := by
  refine ⟨fun f now => rfl, fun f now => rfl, ?_, ?_, applyAttr_path_only_valid⟩
  · intro st v h
    rw [applyAttr_path_eq, if_neg]
    simp [h]
  · intro st v h
    rw [applyAttr_path_eq, if_pos h]

/-- Witness for C2: the invalid occurrence `Path=bogus` is skipped
without clearing the state. -/
theorem claim_C2_last_valid_wins_witness :
    applyAttr { cookie := pairCookie ("n".toList) ("v".toList), expires := none }
        ('P' :: 'a' :: 't' :: 'h' :: '=' :: "bogus".toList) =
      { cookie := pairCookie ("n".toList) ("v".toList), expires := none } :=
  claim_C2_last_valid_wins.2.2.1 _ ("bogus".toList) (by decide)

/-- C3: Max-Age precedence over Expires.  When the scan applied a
Max-Age, the parse result is the scanned cookie for every choice of the
date-parsing collaborator and of the clock, so the captured Expires text
is never consulted; the date is parsed only when max-age is absent and an
Expires value was captured, and then (for a clock at or after the epoch)
max-age becomes the clamped difference `(esec - now).toNat`, which is
exactly `max 0 (esec - now)`; when no format parses, max-age stays
absent and the parse still succeeds; and the formats are tried in the
order RFC 1123, RFC 850, asctime. -/
theorem claim_C3_max_age_precedence :
    (∀ f now src st d, parseScan src = .ok st → st.cookie.max_age = some d →
      parse f now src = .ok st.cookie) ∧
    (∀ f now src st, parseScan src = .ok st → st.expires = none →
      parse f now src = .ok st.cookie) ∧
    (∀ f now src st e esec, parseScan src = .ok st → st.cookie.max_age = none →
      st.expires = some e → 0 ≤ now → tryFormats f e = some esec →
      parse f now src = .ok { st.cookie with max_age := some (esec - now).toNat }) ∧
    (∀ f now src st e, parseScan src = .ok st → st.expires = some e →
      tryFormats f e = none → parse f now src = .ok st.cookie) ∧
    (∀ f e t, f fmtRfc1123 e = some t → tryFormats f e = some t) ∧
    (∀ f e t, f fmtRfc1123 e = none → f fmtRfc850 e = some t →
      tryFormats f e = some t) ∧
    (∀ f e, f fmtRfc1123 e = none → f fmtRfc850 e = none →
      tryFormats f e = f fmtAsctime e) := by
  refine ⟨?_, ?_, ?_, ?_, ?_, ?_, ?_⟩
  · intro f now src st d h1 h2
    unfold parse
    rw [h1]
    dsimp only
    rw [h2]
    cases st.expires <;> rfl
  · intro f now src st h1 h2
    unfold parse
    rw [h1]
    dsimp only
    rw [h2]
  · intro f now src st e esec h1 h2 h3 hnow htf
    unfold parse
    rw [h1]
    dsimp only
    rw [h2, h3]
    dsimp only
    rw [htf]
    dsimp only
    by_cases hgt : esec > now
    · rw [if_pos ⟨hgt, by omega⟩]
    · rw [if_neg (fun hc => hgt hc.1)]
      have h0 : (esec - now).toNat = 0 := by omega
      rw [h0]
  · intro f now src st e h1 h2 htf
    unfold parse
    rw [h1]
    dsimp only
    rw [h2]
    cases hma : st.cookie.max_age with
    | none =>
      dsimp only
      rw [htf]
    | some d => rfl
  · intro f e t h
    unfold tryFormats
    rw [h]
  · intro f e t h1 h2
    unfold tryFormats
    rw [h1, h2]
  · intro f e h1 h2
    unfold tryFormats
    rw [h1, h2]

/-- Witness for C3: with both Max-Age and Expires present and a
collaborator that would happily parse any date, the result is the
Max-Age value. -/
theorem claim_C3_max_age_precedence_witness :
    parse (fun _ _ => some 99) 5 ("n=v; Max-Age=3; Expires=wat".toList) =
      .ok { pairCookie ("n".toList) ("v".toList) with max_age := some 3 } :=
  claim_C3_max_age_precedence.1 (fun _ _ => some 99) 5
    ("n=v; Max-Age=3; Expires=wat".toList)
    { cookie := { pairCookie ("n".toList) ("v".toList) with max_age := some 3 },
      expires := some ("wat".toList) } 3 (by decide) rfl

/-- C4: the concrete round trip.  Parsing the scenario string succeeds,
display reproduces it exactly (for every Expires-rendering collaborator,
which is not consulted since max-age is absent), and the all-lower-case
variant of the input parses to the same cookie, so the displayed casing
is the Serializer canonical one independent of the input casing. -/
theorem claim_C4_round_trip :
    ∀ f now fe,
      parse f now (c4src.toList) = .ok c4cookie ∧
      display fe c4cookie = c4src.toList ∧
      parse f now (c4srcLower.toList) = .ok c4cookie :=
  fun _ _ _ => ⟨rfl, rfl, rfl⟩

/-- C5: the length cap.  Any source string of byte length above 4096 is
rejected with `TooLong`, by the scan phase already, for every
collaborator: no validator result or field ever influences the answer. -/
theorem claim_C5_length_cap :
    ∀ f now src, byteLen src > 4096 →
      parseScan src = .error Err.tooLong ∧ parse f now src = .error Err.tooLong := by
  intro f now src h
  have hs : parseScan src = .error Err.tooLong := by
    unfold parseScan
    rw [if_pos]
    exact h
  refine ⟨hs, ?_⟩
  unfold parse
  rw [hs]

/-- Witness for C5 at a 4097-byte source. -/
theorem claim_C5_length_cap_witness :
    byteLen (List.replicate 4097 'a') > 4096 ∧
    parse (fun _ _ => none) 0 (List.replicate 4097 'a') = .error Err.tooLong := by
  have h : byteLen (List.replicate 4097 'a') > 4096 := by
    rw [byteLen_replicate]
    norm_num [show Char.utf8Size 'a' = 1 from rfl]
  exact ⟨h, (claim_C5_length_cap (fun _ _ => none) 0 _ h).2⟩

/-- C6: Max-Age attribute semantics.  A value parsing to a non-positive
integer stores a zero duration, a positive integer n stores exactly n
seconds, and an unparsable value leaves the state, in particular any
previously stored max-age, unchanged; with the concrete behaviours of
the unit tests in src/parse.rs. -/
theorem claim_C6_max_age_semantics :
    (∀ st v secs, parse_i64 (trim v) = some secs → secs ≤ 0 →
      applyAttr st ('M' :: 'a' :: 'x' :: '-' :: 'A' :: 'g' :: 'e' :: '=' :: v) =
        { st with cookie := { st.cookie with max_age := some 0 } }) ∧
    (∀ st v secs, parse_i64 (trim v) = some secs → 0 < secs →
      applyAttr st ('M' :: 'a' :: 'x' :: '-' :: 'A' :: 'g' :: 'e' :: '=' :: v) =
        { st with cookie := { st.cookie with max_age := some secs.toNat } }) ∧
    (∀ st v, parse_i64 (trim v) = none →
      applyAttr st ('M' :: 'a' :: 'x' :: '-' :: 'A' :: 'g' :: 'e' :: '=' :: v) = st) ∧
    (∀ f now, parse f now ("foo=bar; Max-Age=3".toList) =
      .ok { pairCookie ("foo".toList) ("bar".toList) with max_age := some 3 }) ∧
    (∀ f now, parse f now ("foo=bar; Max-Age=-3".toList) =
      .ok { pairCookie ("foo".toList) ("bar".toList) with max_age := some 0 }) ∧
    (∀ f now, parse f now ("foo=bar; Max-Age=3; Max-Age=wat".toList) =
      .ok { pairCookie ("foo".toList) ("bar".toList) with max_age := some 3 }) := by
  refine ⟨?_, ?_, ?_, fun f now => rfl, fun f now => rfl, fun f now => rfl⟩
  · intro st v secs h hle
    rw [applyAttr_max_age_eq, h]
    dsimp only
    rw [if_pos hle]
  · intro st v secs h hpos
    rw [applyAttr_max_age_eq, h]
    dsimp only
    rw [if_neg (by omega)]
  · intro st v h
    rw [applyAttr_max_age_eq, h]

/-- Witness for C6: `Max-Age=-3` clamps to the zero duration. -/
theorem claim_C6_max_age_semantics_witness :
    applyAttr { cookie := pairCookie ("n".toList) ("v".toList), expires := none }
        ('M' :: 'a' :: 'x' :: '-' :: 'A' :: 'g' :: 'e' :: '=' :: "-3".toList) =
      { cookie := { pairCookie ("n".toList) ("v".toList) with max_age := some 0 },
        expires := none } :=
  claim_C6_max_age_semantics.1 _ ("-3".toList) (-3) (by decide) (by decide)

/-- C7: Domain handling.  `n=v; Domain=.hyper.example` yields the domain
with the dot stripped; an `AsIs` value is stored as-is, a `LeadingDot`
value is stored minus its first character (the `value[1..]` slice of the
trimmed value), an `Invalid` one is skipped; and `Invalid` is exactly the
class of empty values and values holding a control byte or `;`. -/
theorem claim_C7_domain_leading_dot :
    (∀ f now, parse f now ("n=v; Domain=.hyper.example".toList) =
      .ok { pairCookie ("n".toList) ("v".toList) with
              domain := some ("hyper.example".toList) }) ∧
    (∀ st v, validate_domain (trim v) = Domain.asIs →
      applyAttr st ('D' :: 'o' :: 'm' :: 'a' :: 'i' :: 'n' :: '=' :: v) =
        { st with cookie := { st.cookie with domain := some (trim v) } }) ∧
    (∀ st v, validate_domain (trim v) = Domain.leadingDot →
      applyAttr st ('D' :: 'o' :: 'm' :: 'a' :: 'i' :: 'n' :: '=' :: v) =
        { st with cookie := { st.cookie with domain := some ((trim v).drop 1) } }) ∧
    (∀ st v, validate_domain (trim v) = Domain.invalid →
      applyAttr st ('D' :: 'o' :: 'm' :: 'a' :: 'i' :: 'n' :: '=' :: v) = st) ∧
    (∀ v, validate_domain v = Domain.invalid ↔ (v = [] ∨ v.any ctlOrSemi = true)) := by
  refine ⟨fun f now => rfl, ?_, ?_, ?_, ?_⟩
  · intro st v h
    rw [applyAttr_domain_eq, h]
  · intro st v h
    rw [applyAttr_domain_eq, h]
  · intro st v h
    rw [applyAttr_domain_eq, h]
  · intro v
    cases v with
    | nil => simp [validate_domain]
    | cons c r =>
      unfold validate_domain
      dsimp only
      by_cases h : (c :: r).any ctlOrSemi = true
      · rw [if_pos h]
        simp [h]
      · rw [if_neg h]
        constructor
        · intro hcontra
          split at hcontra <;> simp_all
        · intro hor
          rcases hor with h1 | h2
          · exact absurd h1 (by simp)
          · exact absurd h2 h

/-- Witness for C7: the leading dot of `.hyper.example` is stripped. -/
theorem claim_C7_domain_leading_dot_witness :
    applyAttr { cookie := pairCookie ("n".toList) ("v".toList), expires := none }
        ('D' :: 'o' :: 'm' :: 'a' :: 'i' :: 'n' :: '=' :: ".hyper.example".toList) =
      { cookie := { pairCookie ("n".toList) ("v".toList) with
                      domain := some ("hyper.example".toList) },
        expires := none } := by
  have h := claim_C7_domain_leading_dot.2.2.1
    { cookie := pairCookie ("n".toList) ("v".toList), expires := none }
    (".hyper.example".toList) (by decide)
  simpa using h

/-- C8: Builder short-circuiting.  Once the state holds an error, the
generic `and_then` combinator and each fluent step return the same error
untouched for every possible continuation (so no later validator can
run or replace it), and `build` returns exactly the stored state. -/
theorem claim_C8_builder_short_circuit :
    (∀ e f, Builder.and_then { state := .error e } f = { state := .error e }) ∧
    (∀ e v, Builder.value { state := .error e } v = { state := .error e }) ∧
    (∀ e p, Builder.path { state := .error e } p = { state := .error e }) ∧
    (∀ e d, Builder.domain { state := .error e } d = { state := .error e }) ∧
    (∀ e d, Builder.max_age { state := .error e } d = { state := .error e }) ∧
    (∀ e s, Builder.secure { state := .error e } s = { state := .error e }) ∧
    (∀ e h, Builder.http_only { state := .error e } h = { state := .error e }) ∧
    (∀ b : Builder, b.build = b.state) :=
  ⟨fun _ _ => rfl, fun _ _ => rfl, fun _ _ => rfl, fun _ _ => rfl,
   fun _ _ => rfl, fun _ _ => rfl, fun _ _ => rfl, fun _ => rfl⟩

/-- C9: the Builder rejects every domain whose first byte is a dot with
`InvalidDomain`, for any valid name/value seed, because `LeadingDot` and
`Invalid` classifications are both hard errors in `Builder::domain`. -/
theorem claim_C9_builder_rejects_leading_dot :
    ∀ n v d, validate_name n = .ok () → validate_value v = .ok () →
      ((Builder.new n v).domain ('.' :: d)).build = .error Err.invalidDomain := by
  intro n v d h1 h2
  have hd := validate_domain_dot d
  simp only [Builder.domain, Builder.and_then, Builder.build, Builder.new_ok n v h1 h2,
    Except.bind]
  rcases hd with h | h <;> rw [h]

/-- Witness for C9 at the domain `.hyper.rs` of the unit test. -/
theorem claim_C9_builder_rejects_leading_dot_witness :
    ((Builder.new ("n".toList) ("v".toList)).domain ('.' :: "hyper.rs".toList)).build =
      .error Err.invalidDomain :=
  claim_C9_builder_rejects_leading_dot ("n".toList) ("v".toList) ("hyper.rs".toList)
    (by decide) (by decide)

/-- C10: the empty string is a valid value but not a valid name.
`validate_value` accepts the empty string, `foo=` parses with the empty
value and `Builder::new("foo", "")` builds, while `validate_name`
rejects the empty string and `=bar` fails with `InvalidName`. -/
theorem claim_C10_empty_value_vs_name :
    ∀ f now,
      validate_value [] = .ok () ∧
      parse f now ("foo=".toList) = .ok (pairCookie ("foo".toList) []) ∧
      (Builder.new ("foo".toList) []).build = .ok (pairCookie ("foo".toList) []) ∧
      validate_name [] = .error Err.invalidName ∧
      parse f now ("=bar".toList) = .error Err.invalidName :=
  fun _ _ => ⟨rfl, rfl, rfl, rfl, rfl⟩

end Cookies
